import Mathlib

/-!
Verification of the CsoDIAq identification engine against its specification.

The development shallowly embeds the identification pipeline of the CsoDIAq
repository: peak matching in pooled m/z windows, the minimum-match filter,
decoy-based FDR truncation, the ppm correction loop, the idpicker collapse
step, the output formatting functions, the library peak truncation, and the
command-line domain validators.  Floating point quantities (m/z values,
intensities, ppm differences) are embedded as exact rationals.

Functions taken directly from the repository sources keep their names.
Functions that the repository only calls (their defining module is not part
of the sources at hand) are modelled from the specification; each such
definition carries a doc comment starting with "Modelled from the spec:".
-/

namespace CsoDIAq

/-- A spectrum peak: m/z value, intensity, and the owning spectrum's id
(the library-key index for library peaks, the scan id for query peaks). -/
structure Peak where
  mz : ℚ
  intensity : ℚ
  id : ℕ
deriving DecidableEq

/-- One row of the Match table, one per matched library/query peak pair,
mirroring the columns produced by the matching step
(libraryIdx, queryIdx, library/query m/z, library/query intensity,
ppmDifference). -/
structure MatchRow where
  libraryIdx : ℕ
  queryIdx : ℕ
  libraryMz : ℚ
  queryMz : ℚ
  libraryIntensity : ℚ
  queryIntensity : ℚ
  ppmDifference : ℚ
deriving DecidableEq

/-- Parts-per-million difference between a library m/z and a query m/z:
`(queryMz - libraryMz) / libraryMz * 1e6`. -/
def ppmOf (libMz queryMz : ℚ) : ℚ := (queryMz - libMz) / libMz * 1000000

/-- The Match-table row recording a match of library peak `lp` with query
peak `qp`. -/
def mkMatchRow (lp qp : Peak) : MatchRow :=
  ⟨lp.id, qp.id, lp.mz, qp.mz, lp.intensity, qp.intensity, ppmOf lp.mz qp.mz⟩

/-- Modelled from the spec: `match_library_to_query_pooled_spectra` (module
`csodiaq.identifier.matchingFunctions`, absent from the sources at hand).
For every library peak it finds every query peak whose relative m/z
difference is within the given ppm tolerance
(`|queryMz - libraryMz| / libraryMz * 1e6 <= tolerance`) and emits one
Match row per such pair; matching is many-to-many, no peak is consumed. -/
def match_library_to_query_pooled_spectra
    (libPeaks queryPeaks : List Peak) (tolerance : ℚ) : List MatchRow :=
  libPeaks.flatMap fun lp =>
    queryPeaks.filterMap fun qp =>
      if |ppmOf lp.mz qp.mz| ≤ tolerance then some (mkMatchRow lp qp) else none

/-- First-appearance deduplication, the embedding of building a set / of a
pandas groupby key list: keeps the first occurrence of each element. -/
def dedupFirst {α : Type} [DecidableEq α] (l : List α) : List α :=
  l.foldl (fun acc a => if a ∈ acc then acc else acc ++ [a]) []

/-- The rows of a match table belonging to the (library, query) spectrum
pair `(l, q)`: the pandas groupby group for that key. -/
def pairRows (m : List MatchRow) (l q : ℕ) : List MatchRow :=
  m.filter fun r => decide (r.libraryIdx = l ∧ r.queryIdx = q)

/-- Number of matched peaks of the (library, query) spectrum pair `(l, q)`. -/
def countPair (m : List MatchRow) (l q : ℕ) : ℕ := (pairRows m l q).length

/-- Modelled from the spec: `eliminate_low_count_matches` (module
`csodiaq.identifier.matchingFunctions`, absent from the sources at hand).
Any (library, query) spectrum pair with fewer than 3 total matched peaks is
discarded from the match table. -/
def eliminate_low_count_matches (m : List MatchRow) : List MatchRow :=
  m.filter fun r => decide (3 ≤ countPair m r.libraryIdx r.queryIdx)

/-- Embedding of `Identifier._match_library_to_query_spectra`: for each
pooled window, match the pooled library peaks against the pooled query
peaks, apply the minimum-3-matched-peaks filter per window, and concatenate
the per-window match tables. -/
def match_library_to_query_spectra
    (windows : List (List Peak × List Peak)) (tolerance : ℚ) : List MatchRow :=
  (windows.map fun w =>
    eliminate_low_count_matches
      (match_library_to_query_pooled_spectra w.1 w.2 tolerance)).flatten

/-- One row of the Score table, one per (library, query) spectrum pair with
at least the minimum matched peaks.  The cosine similarity score of the
repository involves a real square root whose value none of the verified
claims depends on; the rational MaCC score and the matched peak count are
carried explicitly. -/
structure ScoreRow where
  libraryIdx : ℕ
  queryIdx : ℕ
  maccScore : ℚ
  matchedPeakCount : ℕ
deriving DecidableEq

/-- The 1-based library-intensity rank of a matched peak within its group. -/
def libraryRank (group : List MatchRow) (r : MatchRow) : ℕ :=
  1 + (group.filter fun x => decide (r.libraryIntensity < x.libraryIntensity)).length

/-- Modelled from the spec: the rank-based MaCC composite score of a match
group, the sum over matched peaks of `1/rank` where `rank` is the 1-based
library-intensity rank of the peak. -/
def maccOf (group : List MatchRow) : ℚ :=
  (group.map fun r => (1 : ℚ) / libraryRank group r).sum

/-- The distinct (libraryIdx, queryIdx) keys of a match table, in first
appearance order. -/
def groupKeys (m : List MatchRow) : List (ℕ × ℕ) :=
  dedupFirst (m.map fun r => (r.libraryIdx, r.queryIdx))

/-- The Score row of the (library, query) group keyed `k` of match table `m`. -/
def mkScoreRow (m : List MatchRow) (k : ℕ × ℕ) : ScoreRow :=
  ⟨k.1, k.2, maccOf (pairRows m k.1 k.2), countPair m k.1 k.2⟩

/-- Insertion into a list of Score rows sorted descending by score. -/
def insertScoreDesc (r : ScoreRow) : List ScoreRow → List ScoreRow
  | [] => [r]
  | x :: xs =>
    if x.maccScore < r.maccScore then r :: x :: xs else x :: insertScoreDesc r xs

/-- Sort Score rows descending by score. -/
def sortScoresDesc (l : List ScoreRow) : List ScoreRow := l.foldr insertScoreDesc []

/-- Modelled from the spec: `score_library_to_query_matches` (module
`csodiaq.identifier.scoringFunctions`, absent from the sources at hand).
Emits one Score row per (libraryIdx, queryIdx) group of the match table
and sorts the rows descending by score.  The spec orders by
(cosineScore, maccScore) descending; the cosine value, which requires a
real square root, is not inspected by any verified claim, so the rational
MaCC score stands in as the sort key. -/
def score_library_to_query_matches (m : List MatchRow) : List ScoreRow :=
  sortScoresDesc ((groupKeys m).map (mkScoreRow m))

/-- Embedding of `identify_all_decoys` (from
`csodiaq/identification/outputFormattingFunctions.py`): the 0/1 decoy
indicator array of a Score table, 1 exactly where the row's library key is
in the decoy set. -/
def identify_all_decoys (decoySet : List ℕ) (scoreDf : List ScoreRow) : List ℕ :=
  scoreDf.map fun r => if r.libraryIdx ∈ decoySet then 1 else 0

/-- Number of decoy rows (indicator 1) in a decoy indicator array. -/
def decoyCount (a : List ℕ) : ℕ := (a.filter fun x => decide (x = 1)).length

/-- Estimated FDR after the first `i` ranks of a decoy indicator array:
running decoy count divided by `max(target count, 1)`. -/
def runningFdr (a : List ℕ) (i : ℕ) : ℚ :=
  (decoyCount (a.take i) : ℚ) /
    ((max ((a.take i).length - decoyCount (a.take i)) 1 : ℕ) : ℚ)

/-- Modelled from the spec: `determine_index_of_fdr_cutoff` (module
`csodiaq.identifier.scoringFunctions`, absent from the sources at hand).
The accepted cutoff index is the last (maximal) rank whose cumulative FDR
is at or below 0.01, scanning past any transient dip; 0 when no nonempty
prefix qualifies. -/
def determine_index_of_fdr_cutoff (a : List ℕ) : ℕ :=
  ((List.range (a.length + 1)).filter fun i =>
    decide (runningFdr a i ≤ 1 / 100)).foldr max 0

/-- Embedding of the tail of `Identifier._score_spectra_matches`: score the
match table, compute the decoy indicator array, and truncate the Score
table at the FDR cutoff index. -/
def score_spectra_matches (decoySet : List ℕ) (matchDf : List MatchRow) : List ScoreRow :=
  let scoreDf := score_library_to_query_matches matchDf
  scoreDf.take (determine_index_of_fdr_cutoff (identify_all_decoys decoySet scoreDf))

/-- The set of (libraryIdx, queryIdx) keys of the FDR-accepted Score table,
the embedding of `set(scoreDf.groupby(["libraryIdx", "queryIdx"]).groups)`. -/
def aboveCutoffGroups (scoreDf : List ScoreRow) : List (ℕ × ℕ) :=
  dedupFirst (scoreDf.map fun r => (r.libraryIdx, r.queryIdx))

/-- Modelled from the spec: `eliminate_matches_below_fdr_cutoff` (module
`csodiaq.identifier.matchingFunctions`, absent from the sources at hand).
Keeps only the match rows whose (library, query) group survived the FDR
filter. -/
def eliminate_matches_below_fdr_cutoff
    (matchDf : List MatchRow) (groups : List (ℕ × ℕ)) : List MatchRow :=
  matchDf.filter fun r => decide ((r.libraryIdx, r.queryIdx) ∈ groups)

/-- Arithmetic mean of a list of ppm differences. -/
def ppmMean (l : List ℚ) : ℚ := l.sum / l.length

/-- Population variance of a list of ppm differences (the square of the
standard deviation). -/
def ppmVariance (l : List ℚ) : ℚ :=
  ((l.map fun x => (x - ppmMean l) ^ 2).sum) / l.length

/-- Modelled from the spec: `calculate_ppm_offset_tolerance` with a
standard-deviation multiplier `k` (module
`csodiaq.identifier.scoringFunctions`, absent from the sources at hand).
The offset is the mean of the ppm differences and the tolerance is `k`
times their standard deviation; to keep the embedding rational the pair
`(offset, tolerance^2)` is returned, `tolerance^2 = k^2 * variance`. -/
def calculate_ppm_offset_tolerance (l : List ℚ) (k : ℚ) : ℚ × ℚ :=
  (ppmMean l, k ^ 2 * ppmVariance l)

/-- Modelled from the spec: `filter_matches_by_ppm_offset_and_tolerance`
(module `csodiaq.identifier.scoringFunctions`, absent from the sources at
hand).  Keeps exactly the match rows whose ppmDifference lies within
[offset - tolerance, offset + tolerance], stated rationally as
`(ppmDifference - offset)^2 <= tolerance^2`. -/
def filter_matches_by_ppm_offset_and_tolerance
    (matchDf : List MatchRow) (offset toleranceSq : ℚ) : List MatchRow :=
  matchDf.filter fun r => decide ((r.ppmDifference - offset) ^ 2 ≤ toleranceSq)

/-- Embedding of `Identifier._apply_correction_to_match_dataframe`: keep
the FDR-accepted matches, compute the ppm offset and tolerance from their
ppm differences, re-filter by the offset/tolerance window, and re-apply the
minimum-3-matched-peaks filter. -/
def apply_correction_to_match_dataframe
    (correction : ℚ) (matchDf : List MatchRow) (scoreDf : List ScoreRow) :
    List MatchRow :=
  let m1 := eliminate_matches_below_fdr_cutoff matchDf (aboveCutoffGroups scoreDf)
  let ot := calculate_ppm_offset_tolerance (m1.map (·.ppmDifference)) correction
  eliminate_low_count_matches (filter_matches_by_ppm_offset_and_tolerance m1 ot.1 ot.2)

/-- Embedding of `Identifier._apply_correction_to_score_dataframe`: the
Score table is recomputed from the ground up from the (corrected) match
table and truncated at a freshly computed FDR cutoff; the incoming Score
table is ignored. -/
def apply_correction_to_score_dataframe (decoySet : List ℕ)
    (matchDf : List MatchRow) (_scoreDf : List ScoreRow) : List ScoreRow :=
  let newScoreDf := score_library_to_query_matches matchDf
  newScoreDf.take (determine_index_of_fdr_cutoff (identify_all_decoys decoySet newScoreDf))

/-- Embedding of `Identifier._apply_correction_to_dataframes`: when the
correction argument is -1 both dataframes are returned unchanged, otherwise
the correction is applied to the match table and the Score table is
recomputed from it. -/
def apply_correction_to_dataframes (decoySet : List ℕ) (correction : ℚ)
    (matchDf : List MatchRow) (scoreDf : List ScoreRow) :
    List MatchRow × List ScoreRow :=
  if correction = -1 then (matchDf, scoreDf)
  else
    let m2 := apply_correction_to_match_dataframe correction matchDf scoreDf
    (m2, apply_correction_to_score_dataframe decoySet m2 scoreDf)

/-- The FDR-accepted match rows: the first-pass match table restricted to
the (library, query) groups of the FDR-filtered Score table, as computed at
the top of `Identifier._apply_correction_to_match_dataframe`. -/
def fdrAcceptedMatches (matchDf : List MatchRow) (scoreDf : List ScoreRow) : List MatchRow :=
  eliminate_matches_below_fdr_cutoff matchDf (aboveCutoffGroups scoreDf)

/-- The ppmDifference column of the FDR-accepted match rows. -/
def acceptedPpms (matchDf : List MatchRow) (scoreDf : List ScoreRow) : List ℚ :=
  (fdrAcceptedMatches matchDf scoreDf).map (·.ppmDifference)

/-- Concrete match table for the correction witness: one (0, 0) group with
ppm differences 1, 1, 3, 3 (mean 2, variance 1). -/
def correctionWitnessMatchDf : List MatchRow :=
  [⟨0, 0, 100, 100, 5, 7, 1⟩, ⟨0, 0, 100, 100, 5, 8, 1⟩,
   ⟨0, 0, 100, 100, 6, 7, 3⟩, ⟨0, 0, 100, 100, 6, 9, 3⟩]

/-- Concrete Score table for the correction witness. -/
def correctionWitnessScoreDf : List ScoreRow := [⟨0, 0, 1, 4⟩]

/-- Insert a natural number into an ascending sorted list. -/
def insertAsc (n : ℕ) : List ℕ → List ℕ
  | [] => [n]
  | m :: ms => if n ≤ m then n :: m :: ms else m :: insertAsc n ms

/-- Sort a list of natural numbers ascending (canonical form of a finite
set of identifiers, matching the sorted tuples of the collapse output). -/
def sortAsc (l : List ℕ) : List ℕ := l.foldr insertAsc []

/-- The set of proteins a peptide is connected to in a peptide-protein
edge list, as a sorted duplicate-free list. -/
def protNeighborsOf (edges : List (ℕ × ℕ)) (p : ℕ) : List ℕ :=
  sortAsc (dedupFirst ((edges.filter fun e => decide (e.1 = p)).map (·.2)))

/-- The set of peptides a protein is connected to in a peptide-protein
edge list, as a sorted duplicate-free list. -/
def pepNeighborsOf (edges : List (ℕ × ℕ)) (r : ℕ) : List ℕ :=
  sortAsc (dedupFirst ((edges.filter fun e => decide (e.2 = r)).map (·.1)))

/-- The group of peptides sharing peptide `p`'s exact protein-connectivity
set, as a sorted tuple. -/
def pepGroupOf (edges : List (ℕ × ℕ)) (p : ℕ) : List ℕ :=
  sortAsc (dedupFirst ((edges.map (·.1)).filter fun p2 =>
    decide (protNeighborsOf edges p2 = protNeighborsOf edges p)))

/-- The group of proteins sharing protein `r`'s exact peptide-connectivity
set, as a sorted tuple. -/
def protGroupOf (edges : List (ℕ × ℕ)) (r : ℕ) : List ℕ :=
  sortAsc (dedupFirst ((edges.map (·.2)).filter fun r2 =>
    decide (pepNeighborsOf edges r2 = pepNeighborsOf edges r)))

/-- Modelled from the spec: `collapse_identically_connected_peptides_and_proteins`
(module `csodiaq.identifier.idpickerFunctions`, absent from the sources at
hand; only its test is available).  Peptides connected to an identical set
of proteins are grouped into one node and proteins connected to an
identical set of peptides are grouped into one node; each original edge is
mapped to its (peptide-group, protein-group) pair and duplicates are
dropped, keeping first appearance order. -/
def collapse_identically_connected_peptides_and_proteins
    (edges : List (ℕ × ℕ)) : List (List ℕ × List ℕ) :=
  dedupFirst (edges.map fun e => (pepGroupOf edges e.1, protGroupOf edges e.2))

/-- The 18 example peptide-protein edges of the idpicker collapse test. -/
def idpickerExampleEdges : List (ℕ × ℕ) :=
  [(1, 7), (2, 4), (2, 6), (2, 9), (3, 1), (4, 1), (4, 5), (5, 7), (6, 3),
   (6, 6), (7, 1), (8, 1), (8, 2), (8, 5), (8, 8), (9, 1), (10, 4), (10, 9)]

/-- A cell value of the output table (string, rational, integer or natural
valued columns). -/
inductive Val where
  | s (v : String)
  | q (v : ℚ)
  | z (v : ℤ)
  | n (v : ℕ)
deriving DecidableEq

/-- Library-side metadata of one identification, the `libMetadata`
dictionary consumed by `format_output_line`. -/
structure LibMetadata where
  peptide : String
  proteinName : String
  isDecoy : ℕ
  precursorMz : ℚ
  precursorCharge : ℤ
  identification : String
  peaks : List Peak

/-- Query-side metadata of one identification, the `queMetadata`
dictionary consumed by `format_output_line`. -/
structure QueMetadata where
  scan : ℕ
  precursorMz : ℚ
  peaksCount : ℕ
  CV : ℚ
  windowWidth : ℚ

/-- Match/score metadata of one identification, the `matchMetadata`
dictionary consumed by `format_output_line`. -/
structure MatchMetadata where
  cosineSimilarityScore : ℚ
  maccScore : ℚ
  shared : ℕ
  ionCount : ℚ
  exclude_num : ℕ

/-- Embedding of `format_output_line` (from
`csodiaq/identification/outputFormattingFunctions.py`): the ordered cell
list of one output row. -/
def format_output_line (lib : LibMetadata) (que : QueMetadata)
    (mat : MatchMetadata) : List Val :=
  [Val.n que.scan,
   Val.q que.precursorMz,
   Val.s lib.peptide,
   Val.s lib.proteinName,
   Val.n lib.isDecoy,
   Val.q lib.precursorMz,
   Val.z lib.precursorCharge,
   Val.q mat.cosineSimilarityScore,
   Val.s lib.identification,
   Val.n que.peaksCount,
   Val.n lib.peaks.length,
   Val.n mat.shared,
   Val.q mat.ionCount,
   Val.q que.CV,
   Val.q que.windowWidth,
   Val.q mat.maccScore,
   Val.n mat.exclude_num]

/-- Embedding of `format_output_as_pandas_dataframe` (from
`csodiaq/identification/outputFormattingFunctions.py`): names the 17
output columns, then inserts a `fileName` column (holding the query file
name) at position 0 of every row; returns the column names and the rows. -/
def format_output_as_pandas_dataframe (inputFileName : String)
    (outputData : List (List Val)) : List String × List (List Val) :=
  (["fileName", "scan", "MzEXP", "peptide", "protein", "isDecoy", "MzLIB",
    "zLIB", "cosine", "name", "Peak(Query)", "Peaks(Library)", "shared",
    "ionCount", "CompensationVoltage", "totalWindowWidth", "MaCC_Score",
    "exclude_num"],
   outputData.map fun row => Val.s inputFileName :: row)

/-- The per-group metadata computed by
`extract_metadata_from_match_dataframe_groupby`. -/
structure MatchGroupMetadata where
  shared : ℕ
  ionCount : ℚ
  exclude_num : ℕ
deriving DecidableEq

/-- Embedding of `extract_metadata_from_match_dataframe_groupby` (from
`csodiaq/identification/outputFormattingFunctions.py`): matched peak count
of the group, summed query intensity of the rows above the query precursor
m/z, and the count of the remaining (excluded) rows. -/
def extract_metadata_from_match_dataframe_groupby (group : List MatchRow)
    (precursorMz : ℚ) : MatchGroupMetadata :=
  let groupRowsAbovePrecursorMz := group.filter fun r => decide (precursorMz < r.queryMz)
  ⟨group.length,
   (groupRowsAbovePrecursorMz.map (·.queryIntensity)).sum,
   group.length - groupRowsAbovePrecursorMz.length⟩

/-- Example library metadata for the output-row counterexample. -/
def exampleLibMetadata : LibMetadata := ⟨"PEPTIDEK", "1/protA", 0, 500, 2, "id1", []⟩

/-- Example query metadata for the output-row counterexample. -/
def exampleQueMetadata : QueMetadata := ⟨1, 500, 10, 30, 2⟩

/-- Example match metadata for the output-row counterexample. -/
def exampleMatchMetadata : MatchMetadata := ⟨1, 1, 3, 100, 0⟩

/-- Embedding of `remove_low_intensity_peaks_below_max_peak_num` (from
`csodiaq/loaders/library/LibraryLoaderStrategy.py`): stable sort of the
peak list by intensity descending (Python `list.sort` with `reverse=True`)
followed by truncation to the first `maxPeakNum` peaks. -/
def remove_low_intensity_peaks_below_max_peak_num (peaks : List Peak)
    (maxPeakNum : ℕ) : List Peak :=
  (peaks.mergeSort fun a b => decide (b.intensity ≤ a.intensity)).take maxPeakNum

/-- Embedding of `restricted_float` (from `src/csodiaq.py`): the domain
check of the correction multiplier; the string-to-float parse is outside
the embedding, the already-parsed rational value is validated. -/
def restricted_float (x : ℚ) : Except String ℚ :=
  if x < 1 / 2 ∨ 2 < x then Except.error ("not between 0.5 and 2.0")
  else Except.ok x

/-- Embedding of `restricted_int` (from `src/csodiaq.py`): the fragment
mass tolerance validator; a non-integer numeric literal fails the `int()`
parse, an integer below 1 is rejected, any other value passes unchanged.
The parsed numeric input is embedded as a rational whose denominator-1
condition states integrality. -/
def restricted_int (x : ℚ) : Except String ℤ :=
  if x.den ≠ 1 then Except.error ("not an integer literal")
  else if x.num < 1 then Except.error ("must be an integer greater than 0")
  else Except.ok x.num

theorem mkMatchRow_inj {lp qp lp' qp' : Peak}
    (h : mkMatchRow lp qp = mkMatchRow lp' qp') : lp = lp' ∧ qp = qp' := by
  cases lp; cases qp; cases lp'; cases qp'
  simp only [mkMatchRow, MatchRow.mk.injEq] at h
  obtain ⟨h1, h2, h3, h4, h5, h6, -⟩ := h
  exact ⟨by simp_all, by simp_all⟩

/-- C1: a (library peak, query peak) pair processed in a pooled window
appears as a row of the Match table iff
`|queryMz - libraryMz| / libraryMz * 1e6 <= tolerance`; every row of the
Match table arises from such a pair (so no out-of-tolerance pair appears),
and membership of a pair depends only on that pair's m/z values, i.e.
matching is many-to-many with no greedy exclusivity. -/
theorem matching_within_tolerance_iff (L Q : List Peak) (tolerance : ℚ) :
    (∀ lp ∈ L, ∀ qp ∈ Q,
      (mkMatchRow lp qp ∈ match_library_to_query_pooled_spectra L Q tolerance ↔
        |(qp.mz - lp.mz) / lp.mz * 1000000| ≤ tolerance)) ∧
    (∀ r ∈ match_library_to_query_pooled_spectra L Q tolerance,
      (∃ lp ∈ L, ∃ qp ∈ Q, r = mkMatchRow lp qp) ∧
        |r.ppmDifference| ≤ tolerance ∧
        r.ppmDifference = (r.queryMz - r.libraryMz) / r.libraryMz * 1000000) := by
  constructor
  · intro lp hlp qp hqp
    constructor
    · intro hmem
      rw [match_library_to_query_pooled_spectra, List.mem_flatMap] at hmem
      obtain ⟨lp', hlp', hmem'⟩ := hmem
      rw [List.mem_filterMap] at hmem'
      obtain ⟨qp', hqp', heq⟩ := hmem'
      by_cases h : |ppmOf lp'.mz qp'.mz| ≤ tolerance
      · rw [if_pos h] at heq
        obtain ⟨hl, hq⟩ := mkMatchRow_inj (Option.some_injective _ heq)
        subst hl; subst hq
        simpa [ppmOf] using h
      · rw [if_neg h] at heq
        exact absurd heq (by simp)
    · intro h
      rw [match_library_to_query_pooled_spectra, List.mem_flatMap]
      refine ⟨lp, hlp, ?_⟩
      rw [List.mem_filterMap]
      exact ⟨qp, hqp, by rw [if_pos (by simpa [ppmOf] using h)]⟩
  · intro r hr
    rw [match_library_to_query_pooled_spectra, List.mem_flatMap] at hr
    obtain ⟨lp, hlp, hmem⟩ := hr
    rw [List.mem_filterMap] at hmem
    obtain ⟨qp, hqp, heq⟩ := hmem
    by_cases h : |ppmOf lp.mz qp.mz| ≤ tolerance
    · rw [if_pos h] at heq
      have hr : r = mkMatchRow lp qp := (Option.some_injective _ heq).symm
      subst hr
      exact ⟨⟨lp, hlp, qp, hqp, rfl⟩, by simpa [mkMatchRow] using h, by simp [mkMatchRow, ppmOf]⟩
    · rw [if_neg h] at heq
      exact absurd heq (by simp)

theorem matching_within_tolerance_iff_witness :
    mkMatchRow ⟨100, 1, 0⟩ ⟨100, 2, 7⟩ ∈
      match_library_to_query_pooled_spectra [⟨100, 1, 0⟩] [⟨100, 2, 7⟩] 20 :=
  ((matching_within_tolerance_iff [⟨100, 1, 0⟩] [⟨100, 2, 7⟩] 20).1
    ⟨100, 1, 0⟩ (by decide) ⟨100, 2, 7⟩ (by decide)).mpr (by norm_num)

theorem mem_dedupFirst_foldl {α : Type} [DecidableEq α] (l acc : List α) (x : α) :
    x ∈ l.foldl (fun acc a => if a ∈ acc then acc else acc ++ [a]) acc ↔
      x ∈ acc ∨ x ∈ l := by
  induction l generalizing acc with
  | nil => simp
  | cons a as ih =>
    simp only [List.foldl_cons]
    rw [ih]
    by_cases h : a ∈ acc
    · simp only [if_pos h, List.mem_cons]
      constructor
      · rintro (hx | hx)
        · exact Or.inl hx
        · exact Or.inr (Or.inr hx)
      · rintro (hx | hx | hx)
        · exact Or.inl hx
        · exact Or.inl (hx ▸ h)
        · exact Or.inr hx
    · simp only [if_neg h, List.mem_append, List.mem_singleton, List.mem_cons]
      tauto

theorem mem_dedupFirst {α : Type} [DecidableEq α] (l : List α) (x : α) :
    x ∈ dedupFirst l ↔ x ∈ l := by
  rw [dedupFirst, mem_dedupFirst_foldl]
  simp

theorem pairRows_eliminate (m : List MatchRow) (l q : ℕ) :
    pairRows (eliminate_low_count_matches m) l q =
      if 3 ≤ countPair m l q then pairRows m l q else [] := by
  unfold eliminate_low_count_matches pairRows
  rw [List.filter_filter]
  by_cases h : 3 ≤ countPair m l q
  · rw [if_pos h]
    apply List.filter_congr
    intro r _
    by_cases hk : r.libraryIdx = l ∧ r.queryIdx = q
    · obtain ⟨h1, h2⟩ := hk
      subst h1; subst h2
      simp [h]
    · simp [hk]
  · rw [if_neg h, List.filter_eq_nil_iff]
    intro r _
    by_cases hk : r.libraryIdx = l ∧ r.queryIdx = q
    · obtain ⟨h1, h2⟩ := hk
      subst h1; subst h2
      simp [h]
    · simp [hk]

theorem countPair_eliminate (m : List MatchRow) (l q : ℕ) :
    countPair (eliminate_low_count_matches m) l q =
      if 3 ≤ countPair m l q then countPair m l q else 0 := by
  rw [countPair, pairRows_eliminate]
  split <;> simp [countPair]

theorem countPair_eliminate_inv (m : List MatchRow) (l q : ℕ)
    (h : 0 < countPair (eliminate_low_count_matches m) l q) :
    3 ≤ countPair (eliminate_low_count_matches m) l q := by
  rw [countPair_eliminate] at h ⊢
  by_cases hc : 3 ≤ countPair m l q
  · rw [if_pos hc]
    exact hc
  · rw [if_neg hc] at h
    exact absurd h (by simp)

theorem mem_insertScoreDesc (r x : ScoreRow) (l : List ScoreRow) :
    x ∈ insertScoreDesc r l ↔ x = r ∨ x ∈ l := by
  induction l with
  | nil => simp [insertScoreDesc]
  | cons a as ih =>
    unfold insertScoreDesc
    split
    · simp only [List.mem_cons]
    · simp only [List.mem_cons, ih]
      tauto

theorem mem_sortScoresDesc (x : ScoreRow) (l : List ScoreRow) :
    x ∈ sortScoresDesc l ↔ x ∈ l := by
  induction l with
  | nil => simp [sortScoresDesc]
  | cons a as ih =>
    unfold sortScoresDesc at *
    simp only [List.foldr_cons, mem_insertScoreDesc, List.mem_cons, ih]

theorem le_foldr_max (l : List ℕ) (x : ℕ) (h : x ∈ l) : x ≤ l.foldr max 0 := by
  induction l with
  | nil => simp at h
  | cons a as ih =>
    rcases List.mem_cons.mp h with h' | h'
    · subst h'
      exact le_max_left _ _
    · exact le_trans (ih h') (le_max_right _ _)

theorem foldr_max_eq_zero_or_mem (l : List ℕ) :
    l.foldr max 0 = 0 ∨ l.foldr max 0 ∈ l := by
  induction l with
  | nil => simp
  | cons a as ih =>
    rcases max_choice a (as.foldr max 0) with h | h
    · right
      simp only [List.foldr_cons, h]
      exact List.mem_cons_self a as
    · rcases ih with h0 | hm
      · left
        rw [List.foldr_cons, h, h0]
      · right
        simp only [List.foldr_cons, h]
        exact List.mem_cons_of_mem a hm

/-- C10: when the correction argument equals -1 (correction disabled) the
correction-application step returns both dataframes unchanged, so the first
pass results are the final results. -/
theorem correction_disabled_returns_dataframes_unchanged (decoySet : List ℕ)
    (matchDf : List MatchRow) (scoreDf : List ScoreRow) :
    apply_correction_to_dataframes decoySet (-1) matchDf scoreDf = (matchDf, scoreDf) := by
  simp [apply_correction_to_dataframes]

theorem runningFdr_zero (a : List ℕ) : runningFdr a 0 = 0 := by
  simp [runningFdr, decoyCount]

theorem zero_mem_fdr_filter (a : List ℕ) :
    0 ∈ (List.range (a.length + 1)).filter fun i => decide (runningFdr a i ≤ 1 / 100) := by
  rw [List.mem_filter]
  refine ⟨List.mem_range.mpr (Nat.succ_pos _), ?_⟩
  rw [runningFdr_zero]
  norm_num

theorem fdr_cutoff_le (a : List ℕ) : determine_index_of_fdr_cutoff a ≤ a.length := by
  rw [determine_index_of_fdr_cutoff]
  rcases foldr_max_eq_zero_or_mem
      ((List.range (a.length + 1)).filter fun i => decide (runningFdr a i ≤ 1 / 100)) with h | h
  · rw [h]
    exact Nat.zero_le _
  · have := (List.mem_filter.mp h).1
    exact Nat.lt_succ_iff.mp (List.mem_range.mp this)

theorem fdr_at_cutoff_le (a : List ℕ) :
    runningFdr a (determine_index_of_fdr_cutoff a) ≤ 1 / 100 := by
  rw [determine_index_of_fdr_cutoff]
  rcases foldr_max_eq_zero_or_mem
      ((List.range (a.length + 1)).filter fun i => decide (runningFdr a i ≤ 1 / 100)) with h | h
  · rw [h, runningFdr_zero]
    norm_num
  · have := (List.mem_filter.mp h).2
    simpa using this

theorem fdr_cutoff_maximal (a : List ℕ) (i : ℕ) (hi : i ≤ a.length)
    (h : runningFdr a i ≤ 1 / 100) : i ≤ determine_index_of_fdr_cutoff a := by
  rw [determine_index_of_fdr_cutoff]
  apply le_foldr_max
  rw [List.mem_filter]
  exact ⟨List.mem_range.mpr (Nat.lt_succ_of_le hi), by simpa using h⟩

/-- C2: the decoy indicator is 1 exactly where the row's library key is in
the decoy set; the FDR at rank i is the running decoy count divided by
max(target count, 1); the cutoff index is the last (maximal) rank with
cumulative FDR at or below 0.01, scanning past transient dips; all Score
rows beyond the cutoff are dropped; and a cutoff of 0 yields the empty
accepted set as an ordinary value, not an error. -/
theorem fdr_cutoff_is_maximal_low_fdr_rank (decoySet : List ℕ) (s : List ScoreRow) :
    (∀ i (hi : i < s.length),
      (identify_all_decoys decoySet s).get
          ⟨i, by simpa [identify_all_decoys] using hi⟩ =
        if (s.get ⟨i, hi⟩).libraryIdx ∈ decoySet then 1 else 0) ∧
    (∀ i, i ≤ s.length →
      runningFdr (identify_all_decoys decoySet s) i =
        (decoyCount ((identify_all_decoys decoySet s).take i) : ℚ) /
          ((max (i - decoyCount ((identify_all_decoys decoySet s).take i)) 1 : ℕ) : ℚ)) ∧
    runningFdr (identify_all_decoys decoySet s)
        (determine_index_of_fdr_cutoff (identify_all_decoys decoySet s)) ≤ 1 / 100 ∧
    determine_index_of_fdr_cutoff (identify_all_decoys decoySet s) ≤ s.length ∧
    (∀ i, i ≤ s.length →
      runningFdr (identify_all_decoys decoySet s) i ≤ 1 / 100 →
        i ≤ determine_index_of_fdr_cutoff (identify_all_decoys decoySet s)) ∧
    (∀ matchDf : List MatchRow,
      score_spectra_matches decoySet matchDf =
        (score_library_to_query_matches matchDf).take
          (determine_index_of_fdr_cutoff
            (identify_all_decoys decoySet (score_library_to_query_matches matchDf)))) ∧
    (determine_index_of_fdr_cutoff (identify_all_decoys decoySet s) = 0 →
      s.take (determine_index_of_fdr_cutoff (identify_all_decoys decoySet s)) = []) := by
  have hlen : (identify_all_decoys decoySet s).length = s.length := by
    simp [identify_all_decoys]
  refine ⟨?_, ?_, ?_, ?_, ?_, ?_, ?_⟩
  · intro i hi
    simp [identify_all_decoys, List.get_eq_getElem]
  · intro i hi
    rw [runningFdr, List.length_take, hlen, min_eq_left hi]
  · exact fdr_at_cutoff_le _
  · rw [← hlen]
    exact fdr_cutoff_le _
  · intro i hi h
    exact fdr_cutoff_maximal _ i (by rw [hlen]; exact hi) h
  · intro matchDf
    rfl
  · intro h
    rw [h]
    rfl

theorem fdr_cutoff_is_maximal_low_fdr_rank_witness :
    (identify_all_decoys [5] [⟨1, 0, 1, 3⟩, ⟨5, 0, 1, 3⟩]).get
        ⟨0, by simp [identify_all_decoys]⟩ =
      (if (([⟨1, 0, 1, 3⟩, ⟨5, 0, 1, 3⟩] : List ScoreRow).get
          ⟨0, by decide⟩).libraryIdx ∈ [5] then 1 else 0) ∧
    1 ≤ determine_index_of_fdr_cutoff (identify_all_decoys [5] [⟨1, 0, 1, 3⟩, ⟨5, 0, 1, 3⟩]) :=
  ⟨(fdr_cutoff_is_maximal_low_fdr_rank [5] [⟨1, 0, 1, 3⟩, ⟨5, 0, 1, 3⟩]).1 0 (by decide),
   (fdr_cutoff_is_maximal_low_fdr_rank [5] [⟨1, 0, 1, 3⟩, ⟨5, 0, 1, 3⟩]).2.2.2.2.1 1
     (by decide) (by norm_num [runningFdr, decoyCount, identify_all_decoys])⟩

theorem countPair_eliminate_zero_or_three (m : List MatchRow) (l q : ℕ) :
    countPair (eliminate_low_count_matches m) l q = 0 ∨
      3 ≤ countPair (eliminate_low_count_matches m) l q := by
  rw [countPair_eliminate]
  split
  · right; assumption
  · left; rfl

theorem countPair_flatten (Ls : List (List MatchRow)) (l q : ℕ) :
    countPair Ls.flatten l q = (Ls.map fun x => countPair x l q).sum := by
  rw [countPair, pairRows, List.filter_flatten, List.length_flatten, List.map_map]
  rfl

theorem sum_zero_or_three_le (ns : List ℕ) (h : ∀ n ∈ ns, n = 0 ∨ 3 ≤ n) :
    ns.sum = 0 ∨ 3 ≤ ns.sum := by
  induction ns with
  | nil => simp
  | cons a as ih =>
    have ha := h a (List.mem_cons_self a as)
    have has := ih fun n hn => h n (List.mem_cons_of_mem a hn)
    rw [List.sum_cons]
    omega

theorem score_row_matched_count (m : List MatchRow) (row : ScoreRow)
    (h : row ∈ score_library_to_query_matches m) :
    row.matchedPeakCount = countPair m row.libraryIdx row.queryIdx ∧
      0 < countPair m row.libraryIdx row.queryIdx := by
  rw [score_library_to_query_matches, mem_sortScoresDesc, List.mem_map] at h
  obtain ⟨k, hk, hrow⟩ := h
  rw [groupKeys, mem_dedupFirst, List.mem_map] at hk
  obtain ⟨r, hr, hkey⟩ := hk
  subst hkey
  subst hrow
  refine ⟨rfl, ?_⟩
  exact List.length_pos_of_mem (List.mem_filter.mpr ⟨hr, by simp [mkScoreRow]⟩)

/-- C3: no (library, query) spectrum pair with fewer than 3 total matched
peaks survives into the Score table: the minimum-3-matched-peaks filter is
applied (per pooled window) after the initial matching pass, and is
re-applied after the correction loop's ppm re-filtering, so every Score row
computed from either match table has at least 3 matched peaks. -/
theorem min_three_matched_peaks_in_score_table :
    (∀ (windows : List (List Peak × List Peak)) (tolerance : ℚ),
      ∀ row ∈ score_library_to_query_matches
          (match_library_to_query_spectra windows tolerance),
        3 ≤ row.matchedPeakCount) ∧
    (∀ (correction : ℚ) (matchDf : List MatchRow) (scoreDf : List ScoreRow),
      ∀ row ∈ score_library_to_query_matches
          (apply_correction_to_match_dataframe correction matchDf scoreDf),
        3 ≤ row.matchedPeakCount) := by
  constructor
  · intro windows tolerance row hrow
    obtain ⟨hcount, hpos⟩ := score_row_matched_count _ _ hrow
    rw [hcount]
    rw [match_library_to_query_spectra, countPair_flatten] at hpos ⊢
    have hall : ∀ n ∈ ((windows.map fun w =>
        eliminate_low_count_matches
          (match_library_to_query_pooled_spectra w.1 w.2 tolerance)).map
            fun x => countPair x row.libraryIdx row.queryIdx),
        n = 0 ∨ 3 ≤ n := by
      intro n hn
      rw [List.map_map, List.mem_map] at hn
      obtain ⟨w, hw, hn⟩ := hn
      subst hn
      exact countPair_eliminate_zero_or_three _ _ _
    rcases sum_zero_or_three_le _ hall with h0 | h3
    · rw [h0] at hpos
      exact absurd hpos (by simp)
    · exact h3
  · intro correction matchDf scoreDf row hrow
    obtain ⟨hcount, hpos⟩ := score_row_matched_count _ _ hrow
    rw [hcount]
    exact countPair_eliminate_inv _ _ _ hpos

theorem min_three_matched_peaks_in_score_table_witness :
    3 ≤ (⟨0, 0, 3, 3⟩ : ScoreRow).matchedPeakCount :=
  min_three_matched_peaks_in_score_table.1
    [([⟨100, 5, 0⟩], [⟨100, 7, 0⟩, ⟨100, 8, 0⟩, ⟨100, 9, 0⟩])] 20
    ⟨0, 0, 3, 3⟩ (by
      norm_num [score_library_to_query_matches, match_library_to_query_spectra,
        match_library_to_query_pooled_spectra, eliminate_low_count_matches,
        countPair, pairRows, mkMatchRow, ppmOf, groupKeys, dedupFirst,
        mkScoreRow, maccOf, libraryRank, sortScoresDesc, insertScoreDesc,
        List.filterMap_cons])

/-- C4: with a standard-deviation multiplier k (0.5 ≤ k ≤ 2.0), the
correction offset equals the mean of the FDR-accepted matches'
ppmDifference values and the tolerance equals k times their standard
deviation σ; the match table is re-filtered to keep exactly the rows whose
ppmDifference lies within [offset - k·σ, offset + k·σ]; the
minimum-3-matched-peaks rule is re-applied; and the Score table is
recomputed from scratch from the corrected match table followed by a fresh
FDR truncation. -/
theorem correction_offset_mean_tolerance_k_std
    (k σ : ℚ) (decoySet : List ℕ) (matchDf : List MatchRow) (scoreDf : List ScoreRow)
    (hk1 : 1 / 2 ≤ k) (hk2 : k ≤ 2) (hσ0 : 0 ≤ σ)
    (hσ : σ ^ 2 = ppmVariance (acceptedPpms matchDf scoreDf)) :
    (calculate_ppm_offset_tolerance (acceptedPpms matchDf scoreDf) k).1 =
      ppmMean (acceptedPpms matchDf scoreDf) ∧
    (∀ r, r ∈ filter_matches_by_ppm_offset_and_tolerance
          (fdrAcceptedMatches matchDf scoreDf)
          (ppmMean (acceptedPpms matchDf scoreDf))
          (k ^ 2 * ppmVariance (acceptedPpms matchDf scoreDf)) ↔
        (r ∈ fdrAcceptedMatches matchDf scoreDf ∧
          ppmMean (acceptedPpms matchDf scoreDf) - k * σ ≤ r.ppmDifference ∧
          r.ppmDifference ≤ ppmMean (acceptedPpms matchDf scoreDf) + k * σ)) ∧
    apply_correction_to_match_dataframe k matchDf scoreDf =
      eliminate_low_count_matches
        (filter_matches_by_ppm_offset_and_tolerance
          (fdrAcceptedMatches matchDf scoreDf)
          (ppmMean (acceptedPpms matchDf scoreDf))
          (k ^ 2 * ppmVariance (acceptedPpms matchDf scoreDf))) ∧
    apply_correction_to_dataframes decoySet k matchDf scoreDf =
      (apply_correction_to_match_dataframe k matchDf scoreDf,
        (score_library_to_query_matches
            (apply_correction_to_match_dataframe k matchDf scoreDf)).take
          (determine_index_of_fdr_cutoff
            (identify_all_decoys decoySet
              (score_library_to_query_matches
                (apply_correction_to_match_dataframe k matchDf scoreDf))))) := by
  have hkpos : (0 : ℚ) ≤ k := le_trans (by norm_num) hk1
  have hkσ : (0 : ℚ) ≤ k * σ := mul_nonneg hkpos hσ0
  refine ⟨rfl, ?_, rfl, ?_⟩
  · intro r
    rw [filter_matches_by_ppm_offset_and_tolerance, List.mem_filter]
    constructor
    · rintro ⟨hmem, hcond⟩
      have hsq : (r.ppmDifference - ppmMean (acceptedPpms matchDf scoreDf)) ^ 2 ≤
          (k * σ) ^ 2 := by
        rw [mul_pow, hσ]
        exact of_decide_eq_true hcond
      obtain ⟨hlo, hhi⟩ := abs_le_of_sq_le_sq' hsq hkσ
      exact ⟨hmem, by linarith, by linarith⟩
    · rintro ⟨hmem, hlo, hhi⟩
      refine ⟨hmem, decide_eq_true ?_⟩
      have hsq : (r.ppmDifference - ppmMean (acceptedPpms matchDf scoreDf)) ^ 2 ≤
          (k * σ) ^ 2 := sq_le_sq' (by linarith) (by linarith)
      rw [mul_pow, hσ] at hsq
      exact hsq
  · rw [apply_correction_to_dataframes,
      if_neg (by intro h; rw [h] at hk1; norm_num at hk1)]
    rfl

theorem correction_offset_mean_tolerance_k_std_witness :
    (⟨0, 0, 100, 100, 5, 7, 1⟩ : MatchRow) ∈
      filter_matches_by_ppm_offset_and_tolerance
        (fdrAcceptedMatches correctionWitnessMatchDf correctionWitnessScoreDf)
        (ppmMean (acceptedPpms correctionWitnessMatchDf correctionWitnessScoreDf))
        (1 ^ 2 * ppmVariance (acceptedPpms correctionWitnessMatchDf correctionWitnessScoreDf)) :=
  ((correction_offset_mean_tolerance_k_std 1 1 []
      correctionWitnessMatchDf correctionWitnessScoreDf
      (by norm_num) (by norm_num) (by norm_num)
      (by norm_num [acceptedPpms, fdrAcceptedMatches,
        eliminate_matches_below_fdr_cutoff, aboveCutoffGroups, dedupFirst,
        ppmVariance, ppmMean, correctionWitnessMatchDf,
        correctionWitnessScoreDf])).2.1
    ⟨0, 0, 100, 100, 5, 7, 1⟩).mpr
    ⟨by norm_num [fdrAcceptedMatches, eliminate_matches_below_fdr_cutoff,
        aboveCutoffGroups, dedupFirst, correctionWitnessMatchDf,
        correctionWitnessScoreDf],
     by norm_num [ppmMean, acceptedPpms, fdrAcceptedMatches,
        eliminate_matches_below_fdr_cutoff, aboveCutoffGroups, dedupFirst,
        correctionWitnessMatchDf, correctionWitnessScoreDf],
     by norm_num [ppmMean, acceptedPpms, fdrAcceptedMatches,
        eliminate_matches_below_fdr_cutoff, aboveCutoffGroups, dedupFirst,
        correctionWitnessMatchDf, correctionWitnessScoreDf]⟩

/-- C5: collapsing the 18 example edges yields exactly the twelve expected
(peptide-group, protein-group) rows, in the order of the expected test
output. -/
theorem idpicker_collapse_example :
    collapse_identically_connected_peptides_and_proteins idpickerExampleEdges =
      [([1, 5], [7]), ([2], [4, 9]), ([2], [6]), ([3, 7, 9], [1]),
       ([4], [1]), ([4], [5]), ([6], [3]), ([6], [6]), ([8], [1]),
       ([8], [2, 8]), ([8], [5]), ([10], [4, 9])] := by
  decide

/-- C7: for every match group, the reported ionCount is the sum of the
query intensities of the rows whose query m/z exceeds the query precursor
m/z, the reported excluded count is the group's matched-peak count minus
the number of such above-precursor rows, and the above-precursor rows
(those summed in ionCount) and the excluded rows together exhaust the
group. -/
theorem ion_count_and_excluded_count (group : List MatchRow) (precursorMz : ℚ) :
    (extract_metadata_from_match_dataframe_groupby group precursorMz).ionCount =
      ((group.filter fun r => decide (precursorMz < r.queryMz)).map
        (·.queryIntensity)).sum ∧
    (extract_metadata_from_match_dataframe_groupby group precursorMz).exclude_num =
      (extract_metadata_from_match_dataframe_groupby group precursorMz).shared -
        (group.filter fun r => decide (precursorMz < r.queryMz)).length ∧
    (group.filter fun r => decide (precursorMz < r.queryMz)).length +
        (extract_metadata_from_match_dataframe_groupby group precursorMz).exclude_num =
      (extract_metadata_from_match_dataframe_groupby group precursorMz).shared := by
  refine ⟨rfl, rfl, ?_⟩
  have hle := List.length_filter_le (fun r => decide (precursorMz < r.queryMz)) group
  simp only [extract_metadata_from_match_dataframe_groupby]
  omega

/-- C6 counterexample: the rows of the result output are not exactly the
seventeen claimed fields; `format_output_as_pandas_dataframe` prepends a
fileName cell to every row, so each output row has 18 cells under 18
column names. -/
theorem output_row_not_exactly_claimed_fields :
    (format_output_as_pandas_dataframe ("query.mzXML")
        [format_output_line exampleLibMetadata exampleQueMetadata exampleMatchMetadata]).2 ≠
      [format_output_line exampleLibMetadata exampleQueMetadata exampleMatchMetadata] ∧
    (format_output_as_pandas_dataframe ("query.mzXML") []).1.length = 18 := by
  constructor
  · intro h
    simp only [format_output_as_pandas_dataframe, List.map_cons, List.map_nil,
      List.cons.injEq, and_true] at h
    have hlen := congrArg List.length h
    simp only [List.length_cons] at hlen
    omega
  · rfl

/-- C6 (amended): every row of the result output contains, in a stable
column order with stable names, exactly: file name, then scan id, query
precursor m/z, peptide sequence, protein name(s), decoy flag, library
precursor m/z and charge, cosine score, library spectrum identifier, query
and library peak counts, matched-peak count, ion count, compensation
voltage, window width, MaCC composite score, and excluded-peak count — one
row per accepted (library, query) identification. -/
theorem output_row_fields_and_columns (f : String) (lib : LibMetadata)
    (que : QueMetadata) (mat : MatchMetadata) (rows : List (List Val)) :
    format_output_line lib que mat =
      [Val.n que.scan, Val.q que.precursorMz, Val.s lib.peptide,
       Val.s lib.proteinName, Val.n lib.isDecoy, Val.q lib.precursorMz,
       Val.z lib.precursorCharge, Val.q mat.cosineSimilarityScore,
       Val.s lib.identification, Val.n que.peaksCount, Val.n lib.peaks.length,
       Val.n mat.shared, Val.q mat.ionCount, Val.q que.CV,
       Val.q que.windowWidth, Val.q mat.maccScore, Val.n mat.exclude_num] ∧
    (format_output_as_pandas_dataframe f rows).1 =
      ["fileName", "scan", "MzEXP", "peptide", "protein", "isDecoy", "MzLIB",
       "zLIB", "cosine", "name", "Peak(Query)", "Peaks(Library)", "shared",
       "ionCount", "CompensationVoltage", "totalWindowWidth", "MaCC_Score",
       "exclude_num"] ∧
    (format_output_as_pandas_dataframe f rows).2 =
      rows.map fun row => Val.s f :: row :=
  ⟨rfl, rfl, rfl⟩

theorem mergeSort_desc_pairwise (peaks : List Peak) :
    (peaks.mergeSort fun a b => decide (b.intensity ≤ a.intensity)).Pairwise
      fun a b => b.intensity ≤ a.intensity := by
  have h : (peaks.mergeSort fun a b => decide (b.intensity ≤ a.intensity)).Pairwise
      fun a b => decide (b.intensity ≤ a.intensity) :=
    List.sorted_mergeSort
      (fun a b c h1 h2 => by
        simp only [decide_eq_true_iff] at *
        exact le_trans h2 h1)
      (fun a b => by
        simp only [Bool.or_eq_true, decide_eq_true_iff]
        exact le_total b.intensity a.intensity)
      peaks
  exact h.imp fun hab => of_decide_eq_true hab

/-- C8: the library peak truncation returns the min(length, maxPeakNum)
peaks of highest intensity, sorted in descending intensity order: the
result has length min(length, maxPeakNum), is intensity-descending, and
together with the dropped peaks forms a permutation of the input in which
every dropped peak's intensity is at most every kept peak's intensity. -/
theorem peak_truncation_keeps_top_peaks (peaks : List Peak) (maxPeakNum : ℕ) :
    (remove_low_intensity_peaks_below_max_peak_num peaks maxPeakNum).length =
      min peaks.length maxPeakNum ∧
    (remove_low_intensity_peaks_below_max_peak_num peaks maxPeakNum).Pairwise
      (fun a b => b.intensity ≤ a.intensity) ∧
    ∃ dropped : List Peak,
      (remove_low_intensity_peaks_below_max_peak_num peaks maxPeakNum ++
          dropped).Perm peaks ∧
        ∀ p ∈ remove_low_intensity_peaks_below_max_peak_num peaks maxPeakNum,
          ∀ d ∈ dropped, d.intensity ≤ p.intensity := by
  refine ⟨?_, ?_, ?_⟩
  · rw [remove_low_intensity_peaks_below_max_peak_num, List.length_take,
      List.length_mergeSort, Nat.min_comm]
  · exact List.Pairwise.sublist (List.take_sublist _ _) (mergeSort_desc_pairwise peaks)
  · refine ⟨(peaks.mergeSort fun a b => decide (b.intensity ≤ a.intensity)).drop
      maxPeakNum, ?_, ?_⟩
    · rw [remove_low_intensity_peaks_below_max_peak_num, List.take_append_drop]
      exact List.mergeSort_perm peaks _
    · have h := mergeSort_desc_pairwise peaks
      rw [← List.take_append_drop maxPeakNum
        (peaks.mergeSort fun a b => decide (b.intensity ≤ a.intensity))] at h
      exact fun p hp d hd => (List.pairwise_append.mp h).2.2 p hp d hd

theorem peak_truncation_keeps_top_peaks_witness :
    (remove_low_intensity_peaks_below_max_peak_num
      [⟨100, 1, 0⟩, ⟨200, 9, 0⟩, ⟨300, 5, 0⟩] 2).length = min 3 2 :=
  (peak_truncation_keeps_top_peaks [⟨100, 1, 0⟩, ⟨200, 9, 0⟩, ⟨300, 5, 0⟩] 2).1

/-- C9: out-of-domain configuration parameters are rejected by the
argparse-type validators that run at configuration-validation time: a
correction multiplier outside [0.5, 2.0] produces an argument error, a
fragment mass tolerance that is not an integer at least 1 produces an
argument error, and in-range values are returned unchanged. -/
theorem config_validators_reject_out_of_domain (x y : ℚ) :
    (x < 1 / 2 ∨ 2 < x → ∃ e, restricted_float x = Except.error e) ∧
    (1 / 2 ≤ x → x ≤ 2 → restricted_float x = Except.ok x) ∧
    (¬(y.den = 1 ∧ 1 ≤ y.num) → ∃ e, restricted_int y = Except.error e) ∧
    (y.den = 1 → 1 ≤ y.num → restricted_int y = Except.ok y.num) := by
  refine ⟨?_, ?_, ?_, ?_⟩
  · intro h
    exact ⟨_, by rw [restricted_float, if_pos h]⟩
  · intro h1 h2
    rw [restricted_float, if_neg (by push_neg; exact ⟨h1, h2⟩)]
  · intro h
    by_cases hd : y.den = 1
    · have hn : y.num < 1 := by
        by_contra hc
        exact h ⟨hd, le_of_not_lt hc⟩
      exact ⟨_, by rw [restricted_int, if_neg (by simp [hd]), if_pos hn]⟩
    · exact ⟨_, by rw [restricted_int, if_pos hd]⟩
  · intro hd hn
    rw [restricted_int, if_neg (by simp [hd]), if_neg (by omega)]

theorem config_validators_reject_out_of_domain_witness :
    (∃ e, restricted_float 3 = Except.error e) ∧
    restricted_float 1 = Except.ok 1 ∧
    (∃ e, restricted_int 0 = Except.error e) ∧
    restricted_int 5 = Except.ok (5 : ℚ).num :=
  ⟨(config_validators_reject_out_of_domain 3 0).1 (by norm_num),
   (config_validators_reject_out_of_domain 1 0).2.1 (by norm_num) (by norm_num),
   (config_validators_reject_out_of_domain 0 0).2.2.1 (by norm_num),
   (config_validators_reject_out_of_domain 0 5).2.2.2 (by norm_num) (by norm_num)⟩

end CsoDIAq
